import Mathlib

/-!
Verification of the CPU software renderer (src/main.rs, src/shaders.rs,
src/triangle.rs) against its natural-language specification.

Embedding conventions
- f32 arithmetic is embedded as exact arithmetic: rationals (`ℚ`) for the
  geometry pipeline (vertex transform, rasterizer, render loop) and reals
  (`ℝ`) for the transcendental procedural shaders.  Rounding error is not
  modelled; the claims under test are structural/algebraic.
- The one place where IEEE special values decide behaviour — the barycentric
  weight division by a zero triangle area — is modelled explicitly by `FDiv`,
  a rational extended with `posInf`/`negInf`/`nan`, mirroring IEEE division of
  a finite numerator by (positive) zero.
- The Rust `as usize` saturating float-to-integer cast in `render` is
  modelled by `f32ToUsize` (truncation toward zero, saturation at 0 and at
  `usizeMax`).
- Process-wide mutable state (shader index, noise seed) is passed explicitly
  as function arguments, the standard state-passing translation.
- `rotation.x.sin_cos()` values are abstracted as a record `SinCos` of six
  rational parameters; the rotation claims are algebraic identities in these
  parameters, hence hold in particular at genuine sine/cosine values.
-/

/-- 3-component vector over a scalar type, mirroring `nalgebra_glm::Vec3`. -/
structure Vec3 (α : Type) where
  x : α
  y : α
  z : α
  deriving DecidableEq, Repr

instance {α : Type} [Add α] : Add (Vec3 α) where
  add a b := ⟨a.x + b.x, a.y + b.y, a.z + b.z⟩

instance {α : Type} [Sub α] : Sub (Vec3 α) where
  sub a b := ⟨a.x - b.x, a.y - b.y, a.z - b.z⟩

/-- `v * s` scalar multiplication on the right, as written in the Rust code. -/
instance {α : Type} [Mul α] : HMul (Vec3 α) α (Vec3 α) where
  hMul v s := ⟨v.x * s, v.y * s, v.z * s⟩

/-- `glm::dot`. -/
def Vec3.dot {α : Type} [Add α] [Mul α] (a b : Vec3 α) : α :=
  a.x * b.x + a.y * b.y + a.z * b.z

/-- 4-component homogeneous vector, mirroring `nalgebra_glm::Vec4`. -/
structure Vec4 where
  x : ℚ
  y : ℚ
  z : ℚ
  w : ℚ
  deriving DecidableEq, Repr

/-- 3x3 rational matrix, fields named `m<row><col>`; mirrors
`nalgebra_glm::Mat3` whose `Mat3::new` takes its arguments in row-major
order. -/
structure Mat3 where
  m00 : ℚ
  m01 : ℚ
  m02 : ℚ
  m10 : ℚ
  m11 : ℚ
  m12 : ℚ
  m20 : ℚ
  m21 : ℚ
  m22 : ℚ
  deriving DecidableEq, Repr

def Mat3.identity : Mat3 := ⟨1, 0, 0, 0, 1, 0, 0, 0, 1⟩

def Mat3.transpose (m : Mat3) : Mat3 :=
  ⟨m.m00, m.m10, m.m20, m.m01, m.m11, m.m21, m.m02, m.m12, m.m22⟩

def Mat3.det (m : Mat3) : ℚ :=
  m.m00 * (m.m11 * m.m22 - m.m12 * m.m21)
    - m.m01 * (m.m10 * m.m22 - m.m12 * m.m20)
    + m.m02 * (m.m10 * m.m21 - m.m11 * m.m20)

/-- Matrix-vector product. -/
def Mat3.mulVec (m : Mat3) (v : Vec3 ℚ) : Vec3 ℚ :=
  ⟨m.m00 * v.x + m.m01 * v.y + m.m02 * v.z,
   m.m10 * v.x + m.m11 * v.y + m.m12 * v.z,
   m.m20 * v.x + m.m21 * v.y + m.m22 * v.z⟩

/-- `nalgebra`'s `try_inverse` for a 3x3 matrix: `none` exactly when the
determinant is zero, otherwise the cofactor-based inverse. -/
def Mat3.tryInverse (m : Mat3) : Option Mat3 :=
  if m.det = 0 then none
  else
    let d := m.det
    some ⟨(m.m11 * m.m22 - m.m12 * m.m21) / d,
          (m.m02 * m.m21 - m.m01 * m.m22) / d,
          (m.m01 * m.m12 - m.m02 * m.m11) / d,
          (m.m12 * m.m20 - m.m10 * m.m22) / d,
          (m.m00 * m.m22 - m.m02 * m.m20) / d,
          (m.m02 * m.m10 - m.m00 * m.m12) / d,
          (m.m10 * m.m21 - m.m11 * m.m20) / d,
          (m.m01 * m.m20 - m.m00 * m.m21) / d,
          (m.m00 * m.m11 - m.m01 * m.m10) / d⟩

/-- 4x4 rational matrix, fields named `m<row><col>`; mirrors
`nalgebra_glm::Mat4`.  `Mat4::new` takes its sixteen arguments in row-major
order, while the *linear* `usize` index `m[k]` used in `vertex_shader` walks
the column-major storage: `m[0] = m00`, `m[1] = m10`, `m[2] = m20`,
`m[4] = m01`, `m[5] = m11`, `m[6] = m21`, `m[8] = m02`, `m[9] = m12`,
`m[10] = m22`. -/
structure Mat4 where
  m00 : ℚ
  m01 : ℚ
  m02 : ℚ
  m03 : ℚ
  m10 : ℚ
  m11 : ℚ
  m12 : ℚ
  m13 : ℚ
  m20 : ℚ
  m21 : ℚ
  m22 : ℚ
  m23 : ℚ
  m30 : ℚ
  m31 : ℚ
  m32 : ℚ
  m33 : ℚ
  deriving DecidableEq, Repr

/-- Matrix-matrix product of 4x4 matrices. -/
def Mat4.mul (a b : Mat4) : Mat4 :=
  ⟨a.m00 * b.m00 + a.m01 * b.m10 + a.m02 * b.m20 + a.m03 * b.m30,
   a.m00 * b.m01 + a.m01 * b.m11 + a.m02 * b.m21 + a.m03 * b.m31,
   a.m00 * b.m02 + a.m01 * b.m12 + a.m02 * b.m22 + a.m03 * b.m32,
   a.m00 * b.m03 + a.m01 * b.m13 + a.m02 * b.m23 + a.m03 * b.m33,
   a.m10 * b.m00 + a.m11 * b.m10 + a.m12 * b.m20 + a.m13 * b.m30,
   a.m10 * b.m01 + a.m11 * b.m11 + a.m12 * b.m21 + a.m13 * b.m31,
   a.m10 * b.m02 + a.m11 * b.m12 + a.m12 * b.m22 + a.m13 * b.m32,
   a.m10 * b.m03 + a.m11 * b.m13 + a.m12 * b.m23 + a.m13 * b.m33,
   a.m20 * b.m00 + a.m21 * b.m10 + a.m22 * b.m20 + a.m23 * b.m30,
   a.m20 * b.m01 + a.m21 * b.m11 + a.m22 * b.m21 + a.m23 * b.m31,
   a.m20 * b.m02 + a.m21 * b.m12 + a.m22 * b.m22 + a.m23 * b.m32,
   a.m20 * b.m03 + a.m21 * b.m13 + a.m22 * b.m23 + a.m23 * b.m33,
   a.m30 * b.m00 + a.m31 * b.m10 + a.m32 * b.m20 + a.m33 * b.m30,
   a.m30 * b.m01 + a.m31 * b.m11 + a.m32 * b.m21 + a.m33 * b.m31,
   a.m30 * b.m02 + a.m31 * b.m12 + a.m32 * b.m22 + a.m33 * b.m32,
   a.m30 * b.m03 + a.m31 * b.m13 + a.m32 * b.m23 + a.m33 * b.m33⟩

/-- Matrix-vector product on homogeneous 4-vectors. -/
def Mat4.mulVec4 (m : Mat4) (v : Vec4) : Vec4 :=
  ⟨m.m00 * v.x + m.m01 * v.y + m.m02 * v.z + m.m03 * v.w,
   m.m10 * v.x + m.m11 * v.y + m.m12 * v.z + m.m13 * v.w,
   m.m20 * v.x + m.m21 * v.y + m.m22 * v.z + m.m23 * v.w,
   m.m30 * v.x + m.m31 * v.y + m.m32 * v.z + m.m33 * v.w⟩

def Mat4.identity : Mat4 := ⟨1,0,0,0, 0,1,0,0, 0,0,1,0, 0,0,0,1⟩

/-- Modelled from the spec: the plain vertex record of `vertex.rs` (which is
not under `src/`): object-space position and normal, carried texture
coordinate and base color, plus the two derived fields written by the
transform stage. -/
structure Vertex where
  position : Vec3 ℚ
  normal : Vec3 ℚ
  tex_coords : ℚ × ℚ
  color : ℕ
  transformed_position : Vec3 ℚ
  transformed_normal : Vec3 ℚ
  deriving DecidableEq, Repr

/-- `Uniforms` of `main.rs`: a single model matrix. -/
structure Uniforms where
  model_matrix : Mat4
  deriving DecidableEq, Repr

/-- `vertex_shader` of `shaders.rs` (lines 36-74): homogeneous transform of
the position with perspective division, and the normal transform.  The 3x3
extraction `Mat3::new(m[0], m[1], m[2], m[4], m[5], m[6], m[8], m[9], m[10])`
uses column-major linear indices as row-major constructor arguments, so
`model_mat3` is the *transpose* of the linear part of the model matrix. -/
def vertex_shader (vertex : Vertex) (uniforms : Uniforms) : Vertex :=
  let position : Vec4 := ⟨vertex.position.x, vertex.position.y, vertex.position.z, 1⟩
  let transformed := uniforms.model_matrix.mulVec4 position
  let w := transformed.w
  let transformed_position : Vec3 ℚ := ⟨transformed.x / w, transformed.y / w, transformed.z / w⟩
  let m := uniforms.model_matrix
  let model_mat3 : Mat3 :=
    ⟨m.m00, m.m10, m.m20,
     m.m01, m.m11, m.m21,
     m.m02, m.m12, m.m22⟩
  let normal_matrix := model_mat3.transpose.tryInverse.getD Mat3.identity
  let transformed_normal := normal_matrix.mulVec vertex.normal
  { vertex with
      transformed_position := transformed_position,
      transformed_normal := transformed_normal }

/-- The 3x3 linear submatrix of a model matrix, as the spec words it:
row/column `(i, j)` of the 4x4 matrix for `i, j < 3`.  Used to state the
spec's normal-transform formula (inverse of the transpose of this matrix). -/
def linearSubmatrix (m : Mat4) : Mat3 :=
  ⟨m.m00, m.m01, m.m02,
   m.m10, m.m11, m.m12,
   m.m20, m.m21, m.m22⟩

/-- The normal matrix the spec prescribes: transpose the 3x3 linear
submatrix, invert it, and fall back to the identity when singular. -/
def specNormalMatrix (m : Mat4) : Mat3 :=
  ((linearSubmatrix m).transpose.tryInverse).getD Mat3.identity

/-- A concrete shear model matrix: linear part `[[1,1,0],[0,1,0],[0,0,1]]`,
no translation. -/
def shearUniforms : Uniforms :=
  ⟨⟨1, 1, 0, 0,
    0, 1, 0, 0,
    0, 0, 1, 0,
    0, 0, 0, 1⟩⟩

/-- A concrete vertex with normal `(1,0,0)`. -/
def unitXVertex : Vertex :=
  ⟨⟨0, 0, 0⟩, ⟨1, 0, 0⟩, (0, 0), 0, ⟨0, 0, 0⟩, ⟨0, 0, 0⟩⟩

/-- Modelled from the spec: the 8-bit color record of color.rs (not under
`src/`). -/
structure Color where
  r : ℕ
  g : ℕ
  b : ℕ
  deriving DecidableEq, Repr

/-- `Color::to_hex`: pack the three 8-bit channels into one 24-bit value
(`(r << 16) | (g << 8) | b`; the bit ranges are disjoint so the bitwise or
is addition). -/
def Color.toHex (c : Color) : ℕ := c.r * 65536 + c.g * 256 + c.b

/-- Modelled from the spec: the fragment record of fragment.rs (not under
`src/`): screen position, resolved 8-bit color and interpolated depth. -/
structure Fragment where
  position : Vec3 ℚ
  color : Color
  depth : ℚ
  deriving DecidableEq, Repr

/-- `Fragment::new(x, y, color, depth)`. -/
def Fragment.new (x y : ℚ) (c : Color) (d : ℚ) : Fragment := ⟨⟨x, y, 0⟩, c, d⟩

/-- `edge_function` of triangle.rs (line 82):
`(c.x - a.x) * (b.y - a.y) - (c.y - a.y) * (b.x - a.x)`. -/
def edge_function (a b c : Vec3 ℚ) : ℚ :=
  (c.x - a.x) * (b.y - a.y) - (c.y - a.y) * (b.x - a.x)

/-- `calculate_bounding_box` of triangle.rs: floor of the coordinate minima
and ceiling of the maxima, as integers: `(min_x, min_y, max_x, max_y)`. -/
def calculate_bounding_box (v1 v2 v3 : Vec3 ℚ) : ℤ × ℤ × ℤ × ℤ :=
  (⌊min (min v1.x v2.x) v3.x⌋, ⌊min (min v1.y v2.y) v3.y⌋,
   ⌈max (max v1.x v2.x) v3.x⌉, ⌈max (max v1.y v2.y) v3.y⌉)

/-- The value of an IEEE f32 division with finite operands, in the exact
embedding: finite quotient when the divisor is non-zero, and the IEEE
special values when dividing by (positive) zero.  The rasterizer divides
edge-function values by the triangle area, and a mathematically zero area is
produced as positive zero (`x - x = +0.0` in round-to-nearest). -/
inductive FDiv where
  | fin (q : ℚ)
  | posInf
  | negInf
  | nan
  deriving DecidableEq, Repr

/-- IEEE division of a finite numerator by a finite (positive-zero-signed)
denominator. -/
def fdiv (num den : ℚ) : FDiv :=
  if den = 0 then
    if 0 < num then .posInf else if num < 0 then .negInf else .nan
  else .fin (num / den)

/-- The Rust test `w >= 0.0 && w <= 1.0`: false on both infinities and on
NaN (every comparison with NaN is false). -/
def FDiv.inUnit : FDiv → Bool
  | .fin q => decide (0 ≤ q) && decide (q ≤ 1)
  | _ => false

/-- The underlying rational of a finite division result (junk 0 otherwise;
only ever used on weights that passed the `inUnit` test, hence finite). -/
def FDiv.toRat : FDiv → ℚ
  | .fin q => q
  | _ => 0

/-- `barycentric_coordinates` of triangle.rs (lines 74-80):
`(E(b,c,p)/area, E(c,a,p)/area, E(a,b,p)/area)`. -/
def barycentric_coordinates (p a b c : Vec3 ℚ) (area : ℚ) : FDiv × FDiv × FDiv :=
  (fdiv (edge_function b c p) area,
   fdiv (edge_function c a p) area,
   fdiv (edge_function a b p) area)

/-- The inclusive integer range `lo..=hi` as a list. -/
def intRange (lo hi : ℤ) : List ℤ :=
  (List.range (hi + 1 - lo).toNat).map (fun k : ℕ => lo + (k : ℤ))

/-- Body of the per-pixel loop of `triangle` (triangle.rs lines 31-58):
sample the pixel center `(x + 0.5, y + 0.5)`, compute the barycentric
weights against the triangle area, and keep the pixel iff all three weights
pass the closed `[0,1]` test; an accepted pixel becomes a fragment carrying
model-space-interpolated position/normal-derived color and interpolated
depth.  The real-valued chain normalize-interpolated-normal / procedural
`shade` / 8-bit quantisation (lines 42-52) is abstracted as the `shadeFn`
argument — no claim depends on the fragment color. -/
def trianglePixel (shadeFn : Vec3 ℚ → Vec3 ℚ → Color) (v1 v2 v3 : Vertex)
    (a b c : Vec3 ℚ) (area : ℚ) (x y : ℤ) : Option Fragment :=
  let point : Vec3 ℚ := ⟨(x : ℚ) + 0.5, (y : ℚ) + 0.5, 0⟩
  let ws := barycentric_coordinates point a b c area
  let w1 := ws.1
  let w2 := ws.2.1
  let w3 := ws.2.2
  if w1.inUnit && w2.inUnit && w3.inUnit then
    let q1 := w1.toRat
    let q2 := w2.toRat
    let q3 := w3.toRat
    let interp_pos := v1.position * q1 + v2.position * q2 + v3.position * q3
    let interp_norm := v1.transformed_normal * q1 + v2.transformed_normal * q2 +
      v3.transformed_normal * q3
    let lit_color := shadeFn interp_pos interp_norm
    let depth := a.z * q1 + b.z * q2 + c.z * q3
    some (Fragment.new (x : ℚ) (y : ℚ) lit_color depth)
  else none

/-- `triangle` of triangle.rs (lines 18-63): iterate the bounding box of the
three transformed positions and emit one fragment per accepted pixel. -/
def triangle (shadeFn : Vec3 ℚ → Vec3 ℚ → Color) (v1 v2 v3 : Vertex) : List Fragment :=
  let a := v1.transformed_position
  let b := v2.transformed_position
  let c := v3.transformed_position
  let bb := calculate_bounding_box a b c
  let triangle_area := edge_function a b c
  (intRange bb.2.1 bb.2.2.2).flatMap (fun y =>
    (intRange bb.1 bb.2.2.1).filterMap (fun x =>
      trianglePixel shadeFn v1 v2 v3 a b c triangle_area x y))

/-- The triangle-grouping loop of `render` (main.rs lines 115-124): the loop
walks indices `i = 0, 3, 6, ...` and pushes `[v[i], v[i+1], v[i+2]]` only
when `i + 2 < len`, i.e. it takes successive disjoint runs of three
transformed vertices in order and drops a trailing run of one or two. -/
def groupTriples {α : Type} : List α → List (α × α × α)
  | a :: b :: c :: rest => (a, b, c) :: groupTriples rest
  | _ => []

/-- The vertex-transform loop of `render` (main.rs lines 109-113). -/
def renderTransformed (u : Uniforms) (vertex_array : List Vertex) : List Vertex :=
  vertex_array.map (fun v => vertex_shader v u)

/-- The triangle list built by `render` (main.rs lines 115-124). -/
def renderTriangles (u : Uniforms) (vertex_array : List Vertex) :
    List (Vertex × Vertex × Vertex) :=
  groupTriples (renderTransformed u vertex_array)

/-- Modelled from the spec: the framebuffer record of framebuffer.rs (not
under `src/`): fixed width and height, a row-major color buffer, a parallel
depth buffer whose cells are cleared to +infinity (modelled as
`⊤ : WithTop ℚ`), a current-color scratch register and a background color.
-/
structure Framebuffer where
  width : ℕ
  height : ℕ
  buffer : List ℕ
  zbuffer : List (WithTop ℚ)
  current_color : ℕ
  background_color : ℕ
  deriving DecidableEq, Repr

/-- `Framebuffer::set_current_color`. -/
def Framebuffer.set_current_color (fb : Framebuffer) (c : ℕ) : Framebuffer :=
  { fb with current_color := c }

/-- Modelled from the spec (§4.1): `Framebuffer::point(x, y, depth)` — if
`(x, y)` is within bounds and `depth` is strictly less than the stored
depth, write `current_color` and the new depth at the row-major cell
`y * width + x`; otherwise a no-op. -/
def Framebuffer.point (fb : Framebuffer) (x y : ℕ) (depth : ℚ) : Framebuffer :=
  if x < fb.width ∧ y < fb.height ∧
      (depth : WithTop ℚ) < fb.zbuffer.getD (y * fb.width + x) ⊤ then
    { fb with
        buffer := fb.buffer.set (y * fb.width + x) fb.current_color,
        zbuffer := fb.zbuffer.set (y * fb.width + x) (depth : WithTop ℚ) }
  else fb

/-- `usize::MAX` on a 64-bit target. -/
def usizeMax : ℕ := 2 ^ 64 - 1

/-- The Rust `as usize` cast from `f32`: truncation toward zero with
saturation below at 0 and above at `usize::MAX` (for a finite argument). -/
def f32ToUsize (q : ℚ) : ℕ := if q ≤ 0 then 0 else min ⌊q⌋.toNat usizeMax

/-- The per-fragment body of the final loop of `render` (main.rs lines
131-139): cast the fragment's screen coordinates to `usize`, and when both
are in bounds set the current color and issue a depth-tested `point` write.
-/
def writeFragment (fb : Framebuffer) (fragment : Fragment) : Framebuffer :=
  let x := f32ToUsize fragment.position.x
  let y := f32ToUsize fragment.position.y
  if x < fb.width ∧ y < fb.height then
    (fb.set_current_color fragment.color.toHex).point x y fragment.depth
  else fb

/-- `render` of main.rs (lines 108-140): transform every vertex, group the
transformed vertices into triangles, rasterize each triangle, and write all
fragments through the bounds check and the depth-tested framebuffer write.
`shadeFn` abstracts the procedural shading chain exactly as in `triangle`.
-/
def render (shadeFn : Vec3 ℚ → Vec3 ℚ → Color) (fb : Framebuffer) (u : Uniforms)
    (vertex_array : List Vertex) : Framebuffer :=
  let fragments := (renderTriangles u vertex_array).flatMap
    (fun tri => triangle shadeFn tri.1 tri.2.1 tri.2.2)
  fragments.foldl writeFragment fb

/-- The results of the three `sin_cos()` calls of main.rs, abstracted as six
rational parameters: the rotation claims are polynomial identities in these
values, so they hold in particular at actual sines and cosines of any angle
triple. -/
structure SinCos where
  sin_x : ℚ
  cos_x : ℚ
  sin_y : ℚ
  cos_y : ℚ
  sin_z : ℚ
  cos_z : ℚ
  deriving DecidableEq, Repr

/-- `create_model_matrix` of main.rs (lines 45-81): per-axis rotation
matrices combined as `Z * Y * X`, then a scale-and-translate matrix applied
on the left. -/
def create_model_matrix (translation : Vec3 ℚ) (scale : ℚ) (sc : SinCos) : Mat4 :=
  let rotation_matrix_x : Mat4 :=
    ⟨1, 0, 0, 0,
     0, sc.cos_x, -sc.sin_x, 0,
     0, sc.sin_x, sc.cos_x, 0,
     0, 0, 0, 1⟩
  let rotation_matrix_y : Mat4 :=
    ⟨sc.cos_y, 0, sc.sin_y, 0,
     0, 1, 0, 0,
     -sc.sin_y, 0, sc.cos_y, 0,
     0, 0, 0, 1⟩
  let rotation_matrix_z : Mat4 :=
    ⟨sc.cos_z, -sc.sin_z, 0, 0,
     sc.sin_z, sc.cos_z, 0, 0,
     0, 0, 1, 0,
     0, 0, 0, 1⟩
  let rotation_matrix := (rotation_matrix_z.mul rotation_matrix_y).mul rotation_matrix_x
  let transform_matrix : Mat4 :=
    ⟨scale, 0, 0, translation.x,
     0, scale, 0, translation.y,
     0, 0, scale, translation.z,
     0, 0, 0, 1⟩
  transform_matrix.mul rotation_matrix

/-- `rotate_vec3` of main.rs (lines 83-106): apply the X, then Y, then Z
axis rotation to the vector by explicit coordinate updates. -/
def rotate_vec3 (vec : Vec3 ℚ) (sc : SinCos) : Vec3 ℚ :=
  let y1 := vec.y * sc.cos_x - vec.z * sc.sin_x
  let z1 := vec.y * sc.sin_x + vec.z * sc.cos_x
  let x2 := vec.x * sc.cos_y + z1 * sc.sin_y
  let z2 := -vec.x * sc.sin_y + z1 * sc.cos_y
  let x3 := x2 * sc.cos_z - y1 * sc.sin_z
  let y3 := x2 * sc.sin_z + y1 * sc.cos_z
  ⟨x3, y3, z2⟩

/-- Componentwise division of a vector by a scalar (`v / s`). -/
noncomputable instance : HDiv (Vec3 ℝ) ℝ (Vec3 ℝ) where
  hDiv v s := ⟨v.x / s, v.y / s, v.z / s⟩

/-- glm `magnitude`: the euclidean norm. -/
noncomputable def Vec3.magnitude (v : Vec3 ℝ) : ℝ := Real.sqrt (Vec3.dot v v)

/-- glm `normalize`: componentwise division by the magnitude. -/
noncomputable def Vec3.normalize (v : Vec3 ℝ) : Vec3 ℝ :=
  ⟨v.x / v.magnitude, v.y / v.magnitude, v.z / v.magnitude⟩

/-- Rust `f32::clamp(lo, hi)` for `lo ≤ hi` and finite inputs. -/
noncomputable def rclamp (x lo hi : ℝ) : ℝ := max lo (min x hi)

/-- Rust `f32::trunc`: round toward zero. -/
noncomputable def rustTrunc (x : ℝ) : ℝ := if 0 ≤ x then (⌊x⌋ : ℝ) else (⌈x⌉ : ℝ)

/-- Rust `f32::fract`: `x - x.trunc()` (negative for negative `x`). -/
noncomputable def rustFract (x : ℝ) : ℝ := x - rustTrunc x

/-- Rust `f32::floor` as a real-valued function. -/
noncomputable def rfloor (x : ℝ) : ℝ := (⌊x⌋ : ℝ)

/-- Rust `f32::atan2(self = y, other = x)`. -/
noncomputable def atan2 (y x : ℝ) : ℝ :=
  if 0 < x then Real.arctan (y / x)
  else if x < 0 then
    (if 0 ≤ y then Real.arctan (y / x) + Real.pi else Real.arctan (y / x) - Real.pi)
  else
    (if 0 < y then Real.pi / 2 else if y < 0 then -(Real.pi / 2) else 0)

/-- `noise_seed_vec3` of shaders.rs (lines 26-34), with the `NOISE_SEED`
global passed explicitly: three sin/fract pseudo-random values mapped to
`[-1, 1]`-ish offsets. -/
noncomputable def noise_seed_vec3 (seed : ℕ) : Vec3 ℝ :=
  let s : ℝ := seed
  let r1 := rustFract (Real.sin (s * 0.12345) * 43758.5453)
  let r2 := rustFract (Real.sin (s * 0.34567) * 28123.1234)
  let r3 := rustFract (Real.sin (s * 0.78901) * 15937.9876)
  ⟨r1 * 2 - 1, r2 * 2 - 1, r3 * 2 - 1⟩

/-- `planet_shader_gas` of shaders.rs (lines 166-222): banded clouds with
domain warp, streaking, soft lighting and rim glow; final per-channel clamp
to `[0,1]`. -/
noncomputable def planet_shader_gas (pos normal : Vec3 ℝ) : Vec3 ℝ :=
  let n : Vec3 ℝ := Vec3.normalize normal
  let v1 : Vec3 ℝ := Vec3.normalize ⟨0.36, 0.93, 0.04⟩
  let v2 : Vec3 ℝ := Vec3.normalize ⟨0.79, -0.61, 0.08⟩
  let v3 : Vec3 ℝ := Vec3.normalize ⟨-0.49, 0.12, 0.86⟩
  let band : ℝ := n.y * 14.0
  let warp : ℝ := Real.sin (Vec3.dot pos v1 * 0.9) * 0.55
            + Real.sin (Vec3.dot pos v2 * 1.6) * 0.35
            + Real.sin (Vec3.dot pos v3 * 2.3) * 0.18
  let band : ℝ := band + warp
  let band_val : ℝ := Real.rpow (Real.sin band * 0.5 + 0.5) 1.2
  let streak : ℝ := |Real.sin (Vec3.dot pos v2 * 6.0)| * 0.25
              + |Real.sin (Vec3.dot pos v3 * 8.5)| * 0.15
  let cream : Vec3 ℝ := ⟨0.92, 0.88, 0.80⟩
  let tan : Vec3 ℝ := ⟨0.78, 0.66, 0.50⟩
  let ochre : Vec3 ℝ := ⟨0.76, 0.58, 0.30⟩
  let blue_gray : Vec3 ℝ := ⟨0.65, 0.72, 0.80⟩
  let band_family_a : Vec3 ℝ := cream * (1 - band_val) + tan * band_val
  let band_family_b : Vec3 ℝ := ochre * (1 - band_val) + blue_gray * band_val
  let family_alt : ℝ :=
    rclamp (Real.sin (Vec3.dot pos v1 * 0.25 + n.y * 0.6) * 0.5 + 0.5) 0 1
  let family_mix : ℝ := rclamp (family_alt * 0.6 + 0.2) 0 1
  let color : Vec3 ℝ := band_family_a * (1 - family_mix) + band_family_b * family_mix
  let color : Vec3 ℝ := color * (1 + 0.18 * streak)
  let turb : ℝ := |Real.sin (Vec3.dot pos v1 * 3.1)| * 0.12
            + |Real.sin (Vec3.dot pos v2 * 4.7)| * 0.08
  let color : Vec3 ℝ := color * (1 + turb)
  let light_dir : Vec3 ℝ := Vec3.normalize ⟨0.6, 0.7, 0.3⟩
  let lambert : ℝ := max (Vec3.dot n light_dir) 0
  let spec : ℝ := Real.rpow lambert 8.0 * 0.05
  let ambient : ℝ := 0.35
  let lit : ℝ := ambient + 0.7 * lambert + spec
  let color : Vec3 ℝ := color * lit
  let rim : ℝ := Real.rpow (1 - Vec3.dot n ⟨0, 0, 1⟩) 2.2
  let color : Vec3 ℝ := color + (⟨0.12, 0.18, 0.24⟩ : Vec3 ℝ) * (rim * 0.18)
  ⟨rclamp color.x 0 1, rclamp color.y 0 1, rclamp color.z 0 1⟩

/-- `planet_shader_sun` of shaders.rs (lines 532-583): emissive base,
isotropic turbulence, flicker, granulation, sunspot darkening with a 55%
brightness floor, rim glow, and a final per-channel `min` with 1 (no lower
clamp: non-negativity is structural). -/
noncomputable def planet_shader_sun (pos normal : Vec3 ℝ) : Vec3 ℝ :=
  let n : Vec3 ℝ := Vec3.normalize normal
  let base : Vec3 ℝ := ⟨1, 0.65, 0.18⟩
  let color : Vec3 ℝ := base * (0.85 : ℝ)
  let p : Vec3 ℝ := pos
  let v1 : Vec3 ℝ := Vec3.normalize ⟨0.36, 0.93, 0.04⟩
  let v2 : Vec3 ℝ := Vec3.normalize ⟨0.79, -0.61, 0.08⟩
  let v3 : Vec3 ℝ := Vec3.normalize ⟨-0.49, 0.12, 0.86⟩
  let n1 : ℝ := Real.sin (Vec3.dot p v1 * 0.9)
  let n2 : ℝ := Real.sin (Vec3.dot p v2 * 1.6)
  let n3 : ℝ := Real.sin (Vec3.dot p v3 * 2.3)
  let turb : ℝ := rclamp (|n1| * 0.5 + |n2| * 0.3 + |n3| * 0.2) 0 1
  let color : Vec3 ℝ := color + (⟨1, 0.8, 0.45⟩ : Vec3 ℝ) * (turb * 0.25)
  let flicker : ℝ := max (Real.sin (pos.x * 0.12) * Real.cos (pos.y * 0.13) *
    Real.sin (pos.z * 0.11) * 0.10 + 0.10) 0
  let color : Vec3 ℝ := color + base * flicker
  let g1 : ℝ := |Real.sin (Vec3.dot p v1 * 0.8)|
  let g2 : ℝ := |Real.sin (Vec3.dot p v2 * 1.2)|
  let g3 : ℝ := |Real.sin (Vec3.dot p v3 * 1.6)|
  let gran : ℝ := rclamp (0.5 * g1 + 0.3 * g2 + 0.2 * g3) 0 1
  let gran_amp : ℝ := 0.25
  let color : Vec3 ℝ := color * ((1 - gran_amp * 0.6) + gran_amp * gran)
  let n_low : ℝ := (Real.sin (pos.x * 0.08) * Real.cos (pos.y * 0.075) *
    Real.sin (pos.z * 0.065) + 1) * 0.5
  let t : ℝ := rclamp ((0.50 - n_low) / 0.15) 0 1
  let spots : ℝ := t * t * (3 - 2 * t)
  let spots : ℝ := Real.rpow spots 2.2
  let penumbra : ℝ := spots * 0.18
  let umbra : ℝ := Real.rpow spots 1.6 * 0.18
  let spot_att : ℝ := 1 - (penumbra + umbra)
  let spot_att : ℝ := max spot_att 0.55
  let color : Vec3 ℝ := color * spot_att
  let rim : ℝ := Real.rpow (1 - Vec3.dot n ⟨0, 0, 1⟩) 3.0
  let color : Vec3 ℝ := color + (⟨1, 0.6, 0.25⟩ : Vec3 ℝ) * (rim * 0.2)
  ⟨min color.x 1, min color.y 1, min color.z 1⟩

/-- `planet_shader_rock` of shaders.rs (lines 225-329): seeded domain warp,
stratified rock, crack network, slope-based dust, sparse procedural craters
and rough lighting; final per-channel clamp to `[0,1]`. -/
noncomputable def planet_shader_rock (seed : ℕ) (pos normal : Vec3 ℝ) : Vec3 ℝ :=
  let n : Vec3 ℝ := Vec3.normalize normal
  let seed_vec : Vec3 ℝ := noise_seed_vec3 seed
  let p : Vec3 ℝ := pos + seed_vec * (12.3 : ℝ)
  let v1 : Vec3 ℝ := Vec3.normalize ⟨0.36, 0.93, 0.04⟩
  let v2 : Vec3 ℝ := Vec3.normalize ⟨0.79, -0.61, 0.08⟩
  let v3 : Vec3 ℝ := Vec3.normalize ⟨-0.49, 0.12, 0.86⟩
  let f1 : ℝ := Real.sin (Vec3.dot p v1 * 0.25)
  let f2 : ℝ := Real.sin (Vec3.dot p v2 * 0.55)
  let f3 : ℝ := Real.sin (Vec3.dot p v3 * 1.10)
  let noise_base : ℝ := (0.55 * f1 + 0.3 * f2 + 0.15 * f3) * 0.5 + 0.5
  let f4 : ℝ := |Real.sin (Vec3.dot p v1 * 2.0)|
  let f5 : ℝ := |Real.sin (Vec3.dot p v2 * 3.3)|
  let f6 : ℝ := |Real.sin (Vec3.dot p v3 * 5.1)|
  let height : ℝ := rclamp (0.5 * noise_base + 0.3 * f4 + 0.2 * (0.5 * f5 + 0.5 * f6)) 0 1
  let sdir : Vec3 ℝ := Vec3.normalize
    (v1 + v2 * (0.3 : ℝ) + v3 * (0.2 : ℝ) + seed_vec * (0.2 : ℝ))
  let strata_raw : ℝ := |Real.sin (Vec3.dot p sdir * 0.6)|
  let strata : ℝ := Real.rpow strata_raw 3.0
  let crack_a : ℝ := |Real.sin (Vec3.dot p v1 * 6.5) * Real.sin (Vec3.dot p v2 * 6.2)|
  let crack_b : ℝ := |Real.sin (Vec3.dot p v2 * 7.1) * Real.sin (Vec3.dot p v3 * 7.4)|
  let cracks : ℝ := rclamp (Real.rpow (min crack_a crack_b) 12.0) 0 1
  let basalt : Vec3 ℝ := ⟨0.12, 0.10, 0.09⟩
  let regolith : Vec3 ℝ := ⟨0.38, 0.31, 0.22⟩
  let iron_oxide : Vec3 ℝ := ⟨0.55, 0.32, 0.15⟩
  let up : Vec3 ℝ := if Vec3.magnitude pos > 0 then pos / Vec3.magnitude pos else ⟨0, 1, 0⟩
  let slope : ℝ := rclamp (1 - Vec3.dot n up) 0 1
  let dust_mask : ℝ := rclamp (height * 0.7 + strata * 0.5 + (1 - slope) * 0.6) 0 1
  let iron_mask : ℝ := rclamp ((noise_base - 0.6) / 0.25) 0 1
  let albedo : Vec3 ℝ := basalt * (1 - dust_mask) + regolith * dust_mask
  let albedo : Vec3 ℝ := albedo * (1 - iron_mask) + iron_oxide * iron_mask
  let albedo : Vec3 ℝ := albedo * (1 - cracks * 0.6)
  let micro : ℝ := |Real.sin (Vec3.dot p v1 * 9.0) * Real.cos (Vec3.dot p v2 * 11.0)| * 0.2
  let color : Vec3 ℝ := albedo * ((1 : ℝ) - 0.15) + albedo * micro
  let ao : ℝ := rclamp (1 - height) 0 1
  let color : Vec3 ℝ := color * (1 - 0.35 * ao)
  let cscale : ℝ := 0.06
  let cx : ℝ := rfloor (p.x * cscale)
  let cy : ℝ := rfloor (p.y * cscale)
  let cz : ℝ := rfloor (p.z * cscale)
  let cell : Vec3 ℝ := ⟨cx, cy, cz⟩
  let h1 : ℝ :=
    let d : ℝ := Vec3.dot cell ⟨12.9898, 78.233, 37.719⟩ + seed_vec.x * 97.0
    let s : ℝ := Real.sin d * 43758.5453
    s - rfloor s
  let h2 : ℝ :=
    let d : ℝ := Vec3.dot cell ⟨93.989, 67.345, 24.123⟩ + seed_vec.y * 73.0
    let s : ℝ := Real.sin d * 12753.5453
    s - rfloor s
  let h3 : ℝ :=
    let d : ℝ := Vec3.dot cell ⟨53.786, 12.345, 91.532⟩ + seed_vec.z * 59.0
    let s : ℝ := Real.sin d * 31837.1234
    s - rfloor s
  let color : Vec3 ℝ :=
    if h1 > 0.88 then
      let off : Vec3 ℝ := (⟨h1 - 0.5, h2 - 0.5, h3 - 0.5⟩ : Vec3 ℝ) * (1 / cscale)
      let center : Vec3 ℝ := cell / cscale + off
      let pn : Vec3 ℝ := if Vec3.magnitude pos > 0 then pos / Vec3.magnitude pos else n
      let cn : Vec3 ℝ :=
        if Vec3.magnitude center > 0 then center / Vec3.magnitude center else n
      let ang : ℝ := Real.arccos (rclamp (Vec3.dot pn cn) (-1) 1)
      let w : ℝ := 0.045 + h2 * 0.02
      let t : ℝ := rclamp (1 - ang / w) 0 1
      let bowl : ℝ := t * t
      let rim : ℝ := Real.rpow (1 - rclamp (|ang - w * 0.85| / (w * 0.25)) 0 1) 4.0
      let crater_dark : ℝ := bowl * 0.22
      let rim_bright : ℝ := rim * 0.08
      let color : Vec3 ℝ := color * (1 - crater_dark)
      color + (⟨0.25, 0.22, 0.18⟩ : Vec3 ℝ) * rim_bright
    else color
  let light_dir : Vec3 ℝ := Vec3.normalize ⟨0.6, 0.7, 0.3⟩
  let lambert : ℝ := max (Vec3.dot n light_dir) 0
  let spec : ℝ := Real.rpow lambert 12.0 * 0.15
  let ambient : ℝ := 0.22
  let lit : ℝ := ambient + 0.95 * lambert + spec
  let color : Vec3 ℝ := color * lit
  ⟨rclamp color.x 0 1, rclamp color.y 0 1, rclamp color.z 0 1⟩

/-- `planet_shader_cheese` of shaders.rs (lines 332-389): creamy gradient,
porous holes, marbling, rind cracks/spots/speckles, soft lighting; final
per-channel clamp to `[0,1]`. -/
noncomputable def planet_shader_cheese (seed : ℕ) (pos normal : Vec3 ℝ) : Vec3 ℝ :=
  let n : Vec3 ℝ := Vec3.normalize normal
  let seed_vec : Vec3 ℝ := noise_seed_vec3 seed
  let p : Vec3 ℝ := pos + seed_vec * (5.3 : ℝ)
  let base_core : Vec3 ℝ := ⟨1.0, 0.92, 0.55⟩
  let base_rind : Vec3 ℝ := ⟨0.95, 0.78, 0.38⟩
  let vertical : ℝ := rclamp (n.y * 0.5 + 0.5) 0 1
  let color : Vec3 ℝ := base_core * (1 - vertical * 0.4) + base_rind * (vertical * 0.4)
  let hole_noise : ℝ :=
    |Real.sin (p.x * 3.4) * Real.cos (p.y * 4.1) * Real.sin (p.z * 3.8)|
  let hole_mask : ℝ := Real.rpow (rclamp ((hole_noise - 0.35) / 0.25) 0 1) 2.5
  let cavity : Vec3 ℝ := ⟨0.32, 0.24, 0.14⟩
  let hole_depth : ℝ := hole_mask
  let color : Vec3 ℝ := color * (1 - hole_depth * 0.45) + cavity * (hole_depth * 0.8)
  let rim_mask : ℝ := rclamp (hole_depth * 1.4) 0 1 - Real.rpow hole_depth 1.4
  let rim_color : Vec3 ℝ := ⟨1.05, 0.95, 0.68⟩
  let color : Vec3 ℝ := color + rim_color * (rim_mask * 0.35)
  let vein : ℝ :=
    Real.rpow (|Real.sin (p.x * 1.7 + p.y * 0.9) * Real.cos (p.z * 1.3)| * 0.8) 3.5
  let vein_color : Vec3 ℝ := ⟨1.05, 0.95, 0.65⟩
  let color : Vec3 ℝ := color * (1 - vein * 0.25) + vein_color * (vein * 0.25)
  let equator : ℝ := Real.rpow |Real.sin (pos.y * 4.5)| 6.0
  let crack_noise : ℝ := Real.rpow (|Real.sin (p.x * 5.2) * Real.sin (p.z * 5.9)|) 3.0
  let crack_mask : ℝ := (equator * crack_noise) * 0.5
  let color : Vec3 ℝ := color - ⟨crack_mask * 0.3, crack_mask * 0.22, crack_mask * 0.18⟩
  let rind_spot : ℝ := |Real.sin (p.x * 2.3) + Real.cos (p.z * 2.1)| * 0.5
  let rind_mask : ℝ := Real.rpow (rclamp ((rind_spot - 0.55) / 0.25) 0 1) 2.0
  let color : Vec3 ℝ :=
    color * (1 - rind_mask * 0.15) + (⟨0.6, 0.45, 0.25⟩ : Vec3 ℝ) * (rind_mask * 0.15)
  let bubble : ℝ := Real.rpow (Real.sin (p.x * 1.6 + p.y * 0.9) * 0.5 + 0.5) 6.0
  let color : Vec3 ℝ := color + (⟨0.08, 0.07, 0.03⟩ : Vec3 ℝ) * bubble
  let speckle : ℝ := (|Real.sin (p.x * 7.0)| + |Real.cos (p.z * 6.0)|) * 0.12
  let speckle_amt : ℝ := speckle * vertical * 0.25
  let color : Vec3 ℝ := color - ⟨speckle_amt, speckle_amt, speckle_amt * 0.7⟩
  let light_dir : Vec3 ℝ := Vec3.normalize ⟨0.5, 0.7, 0.4⟩
  let lambert : ℝ := max (Vec3.dot n light_dir) 0
  let spec : ℝ := Real.rpow lambert 20.0 * 0.18
  let ambient : ℝ := 0.35
  let color : Vec3 ℝ := color * (ambient + 0.9 * lambert)
  let color : Vec3 ℝ := color + (⟨0.45, 0.38, 0.25⟩ : Vec3 ℝ) * spec
  ⟨rclamp color.x 0 1, rclamp color.y 0 1, rclamp color.z 0 1⟩

/-- `planet_shader_cat` of shaders.rs (lines 392-434): fur gradient,
stripes, fur noise, whisker arcs, ear-tip darkening, soft lighting; final
per-channel clamp to `[0,1]`. -/
noncomputable def planet_shader_cat (seed : ℕ) (pos normal : Vec3 ℝ) : Vec3 ℝ :=
  let n : Vec3 ℝ := Vec3.normalize normal
  let seed_vec : Vec3 ℝ := noise_seed_vec3 seed
  let p : Vec3 ℝ := pos + seed_vec * (4.7 : ℝ)
  let base_belly : Vec3 ℝ := ⟨0.98, 0.92, 0.85⟩
  let base_back : Vec3 ℝ := ⟨0.55, 0.38, 0.25⟩
  let vertical : ℝ := rclamp (n.y * 0.5 + 0.5) 0 1
  let color : Vec3 ℝ := base_back * vertical + base_belly * (1 - vertical)
  let stripe_coord : ℝ := Real.sin (p.z * 2.6 + Real.sin (p.x * 0.4))
  let stripe_mask : ℝ := rclamp (Real.rpow |stripe_coord| 6.0) 0 1
  let stripe_color : Vec3 ℝ := ⟨0.3, 0.18, 0.12⟩
  let color : Vec3 ℝ :=
    color * (1 - stripe_mask * 0.6) + stripe_color * (stripe_mask * 0.6)
  let fur : ℝ :=
    (Real.sin (p.x * 5.1) * Real.cos (p.y * 6.3) * Real.sin (p.z * 5.6) + 1) * 0.5
  let fur_variation : ℝ := (fur - 0.5) * 0.2
  let color : Vec3 ℝ :=
    color + ⟨fur_variation * 0.7, fur_variation * 0.5, fur_variation * 0.4⟩
  let face_lat : ℝ := Real.sin (pos.y * 3.0)
  let whisker_curve : ℝ :=
    Real.rpow (|Real.sin (pos.x * 1.4 + face_lat * 0.8) * Real.cos (pos.z * 0.3)|) 12.0
  let whisker_color : Vec3 ℝ := ⟨1.0, 0.95, 0.88⟩
  let color : Vec3 ℝ :=
    color * (1 - whisker_curve * 0.25) + whisker_color * (whisker_curve * 0.25)
  let pole : ℝ := Real.rpow |n.y| 3.0
  let ear_color : Vec3 ℝ := ⟨0.25, 0.16, 0.12⟩
  let color : Vec3 ℝ := color * (1 - pole * 0.5) + ear_color * (pole * 0.5)
  let light_dir : Vec3 ℝ := Vec3.normalize ⟨0.5, 0.7, 0.4⟩
  let lambert : ℝ := max (Vec3.dot n light_dir) 0
  let spec : ℝ := Real.rpow lambert 25.0 * 0.12
  let ambient : ℝ := 0.3
  let color : Vec3 ℝ := color * (ambient + 0.9 * lambert)
  let color : Vec3 ℝ := color + (⟨1.0, 0.95, 0.9⟩ : Vec3 ℝ) * spec
  ⟨rclamp color.x 0 1, rclamp color.y 0 1, rclamp color.z 0 1⟩

/-- `planet_shader_bubblegum` of shaders.rs (lines 437-473): magenta/cyan
gradient, polar swirl bands, bubble speckles, iridescent rim, glossy
lighting; final per-channel clamp to `[0,1]`. -/
noncomputable def planet_shader_bubblegum (seed : ℕ) (pos normal : Vec3 ℝ) : Vec3 ℝ :=
  let n : Vec3 ℝ := Vec3.normalize normal
  let seed_vec : Vec3 ℝ := noise_seed_vec3 seed
  let p : Vec3 ℝ := pos + seed_vec * (3.1 : ℝ)
  let top : Vec3 ℝ := ⟨0.8, 0.2, 0.85⟩
  let bottom : Vec3 ℝ := ⟨0.1, 0.8, 0.9⟩
  let vertical : ℝ := rclamp (n.y * 0.5 + 0.5) 0 1
  let color : Vec3 ℝ := top * vertical + bottom * (1 - vertical)
  let swirl : ℝ := Real.sin (p.y * 1.4 + atan2 p.x p.z * 3.0)
  let swirl_mask : ℝ := Real.rpow (swirl * 0.5 + 0.5) 2.0
  let swirl_color : Vec3 ℝ := ⟨1.1, 0.45, 0.95⟩
  let color : Vec3 ℝ :=
    color * (1 - swirl_mask * 0.35) + swirl_color * (swirl_mask * 0.35)
  let bubble_noise : ℝ :=
    |Real.sin (p.x * 5.0) * Real.cos (p.y * 6.3) * Real.sin (p.z * 7.1)|
  let bubbles : ℝ := Real.rpow (rclamp ((bubble_noise - 0.6) / 0.25) 0 1) 3.2
  let bubble_color : Vec3 ℝ := ⟨1.25, 1.18, 0.95⟩
  let color : Vec3 ℝ := color * (1 - bubbles * 0.4) + bubble_color * (bubbles * 0.6)
  let rim : ℝ := Real.rpow (1 - Vec3.dot n ⟨0, 0, 1⟩) 2.5
  let color : Vec3 ℝ := color + (⟨0.35, 0.25, 0.65⟩ : Vec3 ℝ) * (rim * 0.5)
  let light_dir : Vec3 ℝ := Vec3.normalize ⟨0.4, 0.75, 0.5⟩
  let lambert : ℝ := max (Vec3.dot n light_dir) 0
  let spec : ℝ := Real.rpow lambert 40.0 * 0.4
  let ambient : ℝ := 0.25
  let color : Vec3 ℝ := color * (ambient + 0.95 * lambert)
  let color : Vec3 ℝ := color + (⟨1.0, 0.9, 0.95⟩ : Vec3 ℝ) * spec
  ⟨rclamp color.x 0 1, rclamp color.y 0 1, rclamp color.z 0 1⟩

/-- `planet_shader_ice` of shaders.rs (lines 476-515): glacier gradient,
frozen plates, crevasses, frost sparkles, icy specular and cold rim glow;
final per-channel clamp to `[0,1]`. -/
noncomputable def planet_shader_ice (seed : ℕ) (pos normal : Vec3 ℝ) : Vec3 ℝ :=
  let n : Vec3 ℝ := Vec3.normalize normal
  let seed_vec : Vec3 ℝ := noise_seed_vec3 seed
  let p : Vec3 ℝ := pos + seed_vec * (6.2 : ℝ)
  let pole : ℝ := |n.y|
  let shallow : Vec3 ℝ := ⟨0.76, 0.92, 1.0⟩
  let deep : Vec3 ℝ := ⟨0.25, 0.6, 0.85⟩
  let color : Vec3 ℝ := shallow * pole + deep * (1 - pole)
  let plate : ℝ := |Real.sin (p.x * 1.3) * Real.cos (p.z * 1.6)|
  let plate_mask : ℝ := Real.rpow (plate * 0.8) 2.5
  let plate_color : Vec3 ℝ := ⟨0.9, 0.98, 1.08⟩
  let color : Vec3 ℝ :=
    color * (1 - plate_mask * 0.4) + plate_color * (plate_mask * 0.4)
  let crack_noise : ℝ := |Real.sin (p.x * 4.2) * Real.cos (p.y * 3.6)|
  let crack_mask : ℝ := Real.rpow (rclamp ((crack_noise - 0.55) / 0.2) 0 1) 3.0
  let color : Vec3 ℝ := color - ⟨crack_mask * 0.25, crack_mask * 0.3, crack_mask * 0.35⟩
  let sparkle : ℝ :=
    Real.rpow (|Real.sin (p.x * 8.5) * Real.cos (p.y * 9.1) * Real.sin (p.z * 7.9)|) 12.0
  let color : Vec3 ℝ := color + (⟨0.4, 0.5, 0.6⟩ : Vec3 ℝ) * (sparkle * 0.4)
  let light_dir : Vec3 ℝ := Vec3.normalize ⟨0.45, 0.8, 0.4⟩
  let lambert : ℝ := max (Vec3.dot n light_dir) 0
  let spec : ℝ := Real.rpow lambert 50.0 * 0.35
  let ambient : ℝ := 0.28
  let color : Vec3 ℝ := color * (ambient + 0.95 * lambert)
  let color : Vec3 ℝ := color + (⟨0.8, 0.9, 1.0⟩ : Vec3 ℝ) * spec
  let rim : ℝ := Real.rpow (1 - Vec3.dot n ⟨0, 0, 1⟩) 2.8
  let color : Vec3 ℝ := color + (⟨0.3, 0.55, 0.85⟩ : Vec3 ℝ) * (rim * 0.3)
  ⟨rclamp color.x 0 1, rclamp color.y 0 1, rclamp color.z 0 1⟩

/-- `shade` of shaders.rs (lines 518-529), with the two globals it reads
(`CURRENT_SHADER` index and `NOISE_SEED`) passed explicitly: dispatch on the
shader index with `planet_shader_gas` as the default arm. -/
noncomputable def shade (idx : ℕ) (seed : ℕ) (pos normal : Vec3 ℝ) : Vec3 ℝ :=
  match idx with
  | 0 => planet_shader_gas pos normal
  | 1 => planet_shader_rock seed pos normal
  | 2 => planet_shader_sun pos normal
  | 3 => planet_shader_cheese seed pos normal
  | 4 => planet_shader_cat seed pos normal
  | 5 => planet_shader_bubblegum seed pos normal
  | 6 => planet_shader_ice seed pos normal
  | _ => planet_shader_gas pos normal

/-- Modelled from the spec: the process-wide configuration the orchestrator
sets between draw calls — `setShadingStyle`, `setNoiseSeed`,
`setLightDirection`, `setLightIntensity`.  shaders.rs itself defines only
the `CURRENT_SHADER` and `NOISE_SEED` statics; the light setters are called
from main.rs but have no definition in shaders.rs, and no shading function
reads any light global. -/
structure ShaderGlobals where
  shader_idx : ℕ
  noise_seed : ℕ
  light_dir : Vec3 ℝ
  light_intensity : ℝ

/-- The color the shading dispatch produces under a given global
configuration: `shade` reads the shader index and the noise seed; the light
fields of the state are not consulted by any shading function. -/
noncomputable def shadeWithGlobals (g : ShaderGlobals) (pos normal : Vec3 ℝ) : Vec3 ℝ :=
  shade g.shader_idx g.noise_seed pos normal

/-- All three color channels lie in the closed interval `[0,1]`. -/
def channelsIn01 (c : Vec3 ℝ) : Prop :=
  0 ≤ c.x ∧ c.x ≤ 1 ∧ 0 ≤ c.y ∧ c.y ≤ 1 ∧ 0 ≤ c.z ∧ c.z ≤ 1

/-- Fixture: a degenerate triangle vertex (collinear transformed positions
`(0,0,0)`, `(1,1,0)`, `(2,2,0)` across `dv1`, `dv2`, `dv3`). -/
def dv1 : Vertex := ⟨⟨0, 0, 0⟩, ⟨0, 0, 1⟩, (0, 0), 0, ⟨0, 0, 0⟩, ⟨0, 0, 1⟩⟩

def dv2 : Vertex := ⟨⟨1, 0, 0⟩, ⟨0, 0, 1⟩, (0, 0), 0, ⟨1, 1, 0⟩, ⟨0, 0, 1⟩⟩

def dv3 : Vertex := ⟨⟨0, 1, 0⟩, ⟨0, 0, 1⟩, (0, 0), 0, ⟨2, 2, 0⟩, ⟨0, 0, 1⟩⟩

/-- Fixture: a proper triangle with transformed positions `(0,0,0)`,
`(4,0,0)`, `(0,4,0)` across `wv1`, `wv2`, `wv3`. -/
def wv1 : Vertex := ⟨⟨0, 0, 0⟩, ⟨0, 0, 1⟩, (0, 0), 0, ⟨0, 0, 0⟩, ⟨0, 0, 1⟩⟩

def wv2 : Vertex := ⟨⟨1, 0, 0⟩, ⟨0, 0, 1⟩, (0, 0), 0, ⟨4, 0, 0⟩, ⟨0, 0, 1⟩⟩

def wv3 : Vertex := ⟨⟨0, 1, 0⟩, ⟨0, 0, 1⟩, (0, 0), 0, ⟨0, 4, 0⟩, ⟨0, 0, 1⟩⟩

/-- Fixture: a constant stand-in for the abstracted shading chain. -/
def wshade : Vec3 ℚ → Vec3 ℚ → Color := fun _ _ => ⟨0, 0, 0⟩

/-- Fixture: a 2x2 framebuffer with cleared buffers. -/
def wfb : Framebuffer := ⟨2, 2, [0, 0, 0, 0], [⊤, ⊤, ⊤, ⊤], 0, 0⟩

/-- Fixture: a fragment at the negative screen coordinate `x = -3`. -/
def wfrag : Fragment := ⟨⟨-3, 0, 0⟩, ⟨1, 2, 3⟩, 5⟩

@[simp] theorem Vec3.add_x {α : Type} [Add α] (a b : Vec3 α) : (a + b).x = a.x + b.x := rfl

@[simp] theorem Vec3.add_y {α : Type} [Add α] (a b : Vec3 α) : (a + b).y = a.y + b.y := rfl

@[simp] theorem Vec3.add_z {α : Type} [Add α] (a b : Vec3 α) : (a + b).z = a.z + b.z := rfl

@[simp] theorem Vec3.sub_x {α : Type} [Sub α] (a b : Vec3 α) : (a - b).x = a.x - b.x := rfl

@[simp] theorem Vec3.sub_y {α : Type} [Sub α] (a b : Vec3 α) : (a - b).y = a.y - b.y := rfl

@[simp] theorem Vec3.sub_z {α : Type} [Sub α] (a b : Vec3 α) : (a - b).z = a.z - b.z := rfl

@[simp] theorem Vec3.hmul_x {α : Type} [Mul α] (v : Vec3 α) (s : α) : (v * s).x = v.x * s := rfl

@[simp] theorem Vec3.hmul_y {α : Type} [Mul α] (v : Vec3 α) (s : α) : (v * s).y = v.y * s := rfl

@[simp] theorem Vec3.hmul_z {α : Type} [Mul α] (v : Vec3 α) (s : α) : (v * s).z = v.z * s := rfl

/-- C1: the claim states that `vertex_shader` multiplies the object-space
normal by the inverse of the *transpose* of the 3x3 linear submatrix.  At the
shear matrix `[[1,1,0],[0,1,0],[0,0,1]]` with normal `(1,0,0)` the code
produces `(1,0,0)` — it actually multiplies by the plain inverse of the
linear submatrix, because the column-major linear indexing in the `Mat3`
extraction already transposes the submatrix and the subsequent
`.transpose()` cancels it — while the claimed inverse-transpose formula
yields `(1,-1,0)`.  The two disagree, so the claim fails on the code. -/
theorem c1_normal_matrix_code_divergence :
    (vertex_shader unitXVertex shearUniforms).transformed_normal = ⟨1, 0, 0⟩ ∧
    (specNormalMatrix shearUniforms.model_matrix).mulVec unitXVertex.normal = ⟨1, -1, 0⟩ ∧
    (vertex_shader unitXVertex shearUniforms).transformed_normal ≠
      (specNormalMatrix shearUniforms.model_matrix).mulVec unitXVertex.normal := by
  have h1 : (vertex_shader unitXVertex shearUniforms).transformed_normal = ⟨1, 0, 0⟩ := by
    norm_num [vertex_shader, shearUniforms, unitXVertex, Mat4.mulVec4, Mat3.transpose,
      Mat3.tryInverse, Mat3.det, Mat3.mulVec, Mat3.identity]
  have h2 : (specNormalMatrix shearUniforms.model_matrix).mulVec unitXVertex.normal
      = ⟨1, -1, 0⟩ := by
    norm_num [specNormalMatrix, linearSubmatrix, shearUniforms, unitXVertex, Mat3.transpose,
      Mat3.tryInverse, Mat3.det, Mat3.mulVec, Mat3.identity]
  refine ⟨h1, h2, ?_⟩
  rw [h1, h2]
  intro h
  exact absurd (congrArg Vec3.y h) (by norm_num)

/-- C7: transforming any vertex with the identity model matrix leaves the
position unchanged (the homogeneous `w` is 1, so perspective division is a
no-op) and leaves the normal unchanged (the normal matrix is the identity).
-/
theorem c7_identity_roundtrip (v : Vertex) :
    (vertex_shader v ⟨Mat4.identity⟩).transformed_position = v.position ∧
    (vertex_shader v ⟨Mat4.identity⟩).transformed_normal = v.normal := by
  obtain ⟨⟨px, py, pz⟩, ⟨nx, ny, nz⟩, t, c, tp, tn⟩ := v
  constructor
  · show Vec3.mk _ _ _ = Vec3.mk _ _ _
    simp [vertex_shader, Mat4.identity, Mat4.mulVec4]
  · show Vec3.mk _ _ _ = Vec3.mk _ _ _
    norm_num [vertex_shader, Mat4.identity, Mat3.tryInverse, Mat3.transpose, Mat3.det,
      Mat3.mulVec, Mat3.identity]

theorem fdiv_zero_inUnit (num : ℚ) : (fdiv num 0).inUnit = false := by
  unfold fdiv
  rw [if_pos rfl]
  split
  · rfl
  · split <;> rfl

theorem trianglePixel_area_zero (shadeFn : Vec3 ℚ → Vec3 ℚ → Color) (v1 v2 v3 : Vertex)
    (a b c : Vec3 ℚ) (x y : ℤ) :
    trianglePixel shadeFn v1 v2 v3 a b c 0 x y = none := by
  unfold trianglePixel barycentric_coordinates
  simp [fdiv_zero_inUnit]

/-- C3: a triangle whose transformed positions have zero signed area (zero
edge-function value) produces no fragments: every barycentric weight is a
division by zero, hence an infinity or NaN, and the closed `[0,1]` test
rejects every pixel of the bounding box. -/
theorem c3_zero_area_triangle_empty (shadeFn : Vec3 ℚ → Vec3 ℚ → Color)
    (v1 v2 v3 : Vertex)
    (h : edge_function v1.transformed_position v2.transformed_position
      v3.transformed_position = 0) :
    triangle shadeFn v1 v2 v3 = [] := by
  unfold triangle
  rw [List.eq_nil_iff_forall_not_mem]
  intro f hf
  rw [List.mem_flatMap] at hf
  obtain ⟨y, _, hf⟩ := hf
  rw [List.mem_filterMap] at hf
  obtain ⟨x, _, hx⟩ := hf
  rw [h, trianglePixel_area_zero] at hx
  exact Option.noConfusion hx

theorem mem_intRange (lo hi a : ℤ) : a ∈ intRange lo hi ↔ lo ≤ a ∧ a ≤ hi := by
  unfold intRange
  simp only [List.mem_map, List.mem_range]
  constructor
  · rintro ⟨k, hk, rfl⟩
    omega
  · rintro ⟨h1, h2⟩
    exact ⟨(a - lo).toNat, by omega, by omega⟩

theorem triangle_mem (shadeFn : Vec3 ℚ → Vec3 ℚ → Color) (v1 v2 v3 : Vertex) (f : Fragment) :
    f ∈ triangle shadeFn v1 v2 v3 ↔
      ∃ x y : ℤ,
        ((calculate_bounding_box v1.transformed_position v2.transformed_position
            v3.transformed_position).1 ≤ x ∧
          x ≤ (calculate_bounding_box v1.transformed_position v2.transformed_position
            v3.transformed_position).2.2.1) ∧
        ((calculate_bounding_box v1.transformed_position v2.transformed_position
            v3.transformed_position).2.1 ≤ y ∧
          y ≤ (calculate_bounding_box v1.transformed_position v2.transformed_position
            v3.transformed_position).2.2.2) ∧
        trianglePixel shadeFn v1 v2 v3 v1.transformed_position v2.transformed_position
          v3.transformed_position
          (edge_function v1.transformed_position v2.transformed_position
            v3.transformed_position) x y = some f := by
  unfold triangle
  simp only [List.mem_flatMap, List.mem_filterMap, mem_intRange]
  constructor
  · rintro ⟨y, hy, x, hx, hsome⟩
    exact ⟨x, y, hx, hy, hsome⟩
  · rintro ⟨x, y, hx, hy, hsome⟩
    exact ⟨y, hy, x, hx, hsome⟩

theorem trianglePixel_accepted_position (shadeFn : Vec3 ℚ → Vec3 ℚ → Color)
    (v1 v2 v3 : Vertex) (a b c : Vec3 ℚ) (area : ℚ) (x y : ℤ) (f : Fragment)
    (h : trianglePixel shadeFn v1 v2 v3 a b c area x y = some f) :
    f.position.x = (x : ℚ) ∧ f.position.y = (y : ℚ) := by
  simp only [trianglePixel] at h
  split at h
  · obtain rfl := Option.some.inj h
    exact ⟨rfl, rfl⟩
  · exact Option.noConfusion h

/-- C5: for every candidate pixel center `(x + 0.5, y + 0.5)` inside the
triangle's bounding box, the rasterizer emits a fragment at `(x, y)` iff all
three barycentric weights — each a sub-triangle edge-function value divided
by the total edge-function area — pass the closed `[0,1]` containment test.
-/
theorem c5_accept_iff_weights_in_unit (shadeFn : Vec3 ℚ → Vec3 ℚ → Color)
    (v1 v2 v3 : Vertex) (x y : ℤ)
    (hx1 : (calculate_bounding_box v1.transformed_position v2.transformed_position
      v3.transformed_position).1 ≤ x)
    (hx2 : x ≤ (calculate_bounding_box v1.transformed_position v2.transformed_position
      v3.transformed_position).2.2.1)
    (hy1 : (calculate_bounding_box v1.transformed_position v2.transformed_position
      v3.transformed_position).2.1 ≤ y)
    (hy2 : y ≤ (calculate_bounding_box v1.transformed_position v2.transformed_position
      v3.transformed_position).2.2.2) :
    (∃ f ∈ triangle shadeFn v1 v2 v3, f.position.x = (x : ℚ) ∧ f.position.y = (y : ℚ)) ↔
      ((fdiv (edge_function v2.transformed_position v3.transformed_position
          ⟨(x : ℚ) + 0.5, (y : ℚ) + 0.5, 0⟩)
        (edge_function v1.transformed_position v2.transformed_position
          v3.transformed_position)).inUnit = true ∧
       (fdiv (edge_function v3.transformed_position v1.transformed_position
          ⟨(x : ℚ) + 0.5, (y : ℚ) + 0.5, 0⟩)
        (edge_function v1.transformed_position v2.transformed_position
          v3.transformed_position)).inUnit = true ∧
       (fdiv (edge_function v1.transformed_position v2.transformed_position
          ⟨(x : ℚ) + 0.5, (y : ℚ) + 0.5, 0⟩)
        (edge_function v1.transformed_position v2.transformed_position
          v3.transformed_position)).inUnit = true) := by
  constructor
  · rintro ⟨f, hf, hfx, hfy⟩
    rw [triangle_mem] at hf
    obtain ⟨x', y', _, _, hsome⟩ := hf
    obtain ⟨hpx, hpy⟩ :=
      trianglePixel_accepted_position _ _ _ _ _ _ _ _ _ _ _ hsome
    have hxx : x' = x := by exact_mod_cast hpx.symm.trans hfx
    have hyy : y' = y := by exact_mod_cast hpy.symm.trans hfy
    subst hxx hyy
    simp only [trianglePixel, barycentric_coordinates] at hsome
    split at hsome
    · rename_i hcond
      simp only [Bool.and_eq_true] at hcond
      exact ⟨hcond.1.1, hcond.1.2, hcond.2⟩
    · exact Option.noConfusion hsome
  · rintro ⟨h1, h2, h3⟩
    have hsome : ∃ g, trianglePixel shadeFn v1 v2 v3 v1.transformed_position
        v2.transformed_position v3.transformed_position
        (edge_function v1.transformed_position v2.transformed_position
          v3.transformed_position) x y = some g := by
      simp only [trianglePixel, barycentric_coordinates]
      rw [if_pos]
      · exact ⟨_, rfl⟩
      · simp only [Bool.and_eq_true]
        exact ⟨⟨h1, h2⟩, h3⟩
    obtain ⟨g, hg⟩ := hsome
    obtain ⟨hgx, hgy⟩ :=
      trianglePixel_accepted_position _ _ _ _ _ _ _ _ _ _ _ hg
    refine ⟨g, ?_, hgx, hgy⟩
    rw [triangle_mem]
    exact ⟨x, y, ⟨hx1, hx2⟩, ⟨hy1, hy2⟩, hg⟩

theorem groupTriples_length {α : Type} : ∀ l : List α,
    (groupTriples l).length = l.length / 3
  | [] => by simp [groupTriples]
  | [a] => by simp [groupTriples]
  | [a, b] => by simp [groupTriples]
  | a :: b :: c :: rest => by
      have ih := groupTriples_length rest
      simp only [groupTriples, List.length_cons, ih]
      omega

theorem groupTriples_get? {α : Type} : ∀ (l : List α) (k : ℕ) (a b c : α),
    l.get? (3 * k) = some a → l.get? (3 * k + 1) = some b →
    l.get? (3 * k + 2) = some c →
    (groupTriples l).get? k = some (a, b, c)
  | [], k, a, b, c => by intro h; simp at h
  | [a0], k, a, b, c => by
      intro _ h _
      rw [show 3 * k + 1 = (3 * k).succ from rfl, List.get?_cons_succ] at h
      simp at h
  | [a0, b0], k, a, b, c => by
      intro _ _ h
      rw [show 3 * k + 2 = (3 * k).succ.succ from rfl, List.get?_cons_succ,
        List.get?_cons_succ] at h
      simp at h
  | a0 :: b0 :: c0 :: rest, k, a, b, c => by
      intro h1 h2 h3
      match k with
      | 0 =>
        obtain rfl := Option.some.inj (show some a0 = some a from h1)
        obtain rfl := Option.some.inj (show some b0 = some b from h2)
        obtain rfl := Option.some.inj (show some c0 = some c from h3)
        rfl
      | k + 1 =>
        rw [show 3 * (k + 1) = 3 * k + 3 from by ring] at h1
        rw [show 3 * (k + 1) + 1 = (3 * k + 1) + 3 from by ring] at h2
        rw [show 3 * (k + 1) + 2 = (3 * k + 2) + 3 from by ring] at h3
        have h1n : rest.get? (3 * k) = some a := h1
        have h2n : rest.get? (3 * k + 1) = some b := h2
        have h3n : rest.get? (3 * k + 2) = some c := h3
        have ih := groupTriples_get? rest k a b c h1n h2n h3n
        simpa [groupTriples] using ih

/-- C6: `render` groups the transformed vertices into triangles as
contiguous runs of three in order: it builds exactly `⌊n / 3⌋` triangles,
the `k`-th being the transformed vertices at indices `3k, 3k+1, 3k+2`, and a
trailing remainder of one or two vertices yields no triangle. -/
theorem c6_render_groups_triples (u : Uniforms) (vertex_array : List Vertex) :
    (renderTriangles u vertex_array).length = vertex_array.length / 3 ∧
    ∀ (k : ℕ) (a b c : Vertex),
      (renderTransformed u vertex_array).get? (3 * k) = some a →
      (renderTransformed u vertex_array).get? (3 * k + 1) = some b →
      (renderTransformed u vertex_array).get? (3 * k + 2) = some c →
      (renderTriangles u vertex_array).get? k = some (a, b, c) := by
  constructor
  · rw [renderTriangles, groupTriples_length, renderTransformed, List.length_map]
  · intro k a b c h1 h2 h3
    exact groupTriples_get? _ k a b c h1 h2 h3

/-- C9: a fragment with a negative screen coordinate is not discarded by
`render`: the `as usize` cast saturates the negative coordinate to 0, the
in-bounds check then passes (provided the other coordinate is in bounds),
and the fragment is handed to the depth-tested write at column 0
(respectively row 0). -/
theorem c9_negative_coordinate_saturates_to_zero (fb : Framebuffer) (f : Fragment) :
    (f.position.x < 0 → f32ToUsize f.position.y < fb.height → 0 < fb.width →
      f32ToUsize f.position.x = 0 ∧
      writeFragment fb f =
        (fb.set_current_color f.color.toHex).point 0 (f32ToUsize f.position.y)
          f.depth) ∧
    (f.position.y < 0 → f32ToUsize f.position.x < fb.width → 0 < fb.height →
      f32ToUsize f.position.y = 0 ∧
      writeFragment fb f =
        (fb.set_current_color f.color.toHex).point (f32ToUsize f.position.x) 0
          f.depth) := by
  constructor
  · intro hneg hy hw
    have hx0 : f32ToUsize f.position.x = 0 := by
      unfold f32ToUsize
      rw [if_pos (le_of_lt hneg)]
    refine ⟨hx0, ?_⟩
    unfold writeFragment
    rw [hx0, if_pos ⟨hw, hy⟩]
  · intro hneg hx hh
    have hy0 : f32ToUsize f.position.y = 0 := by
      unfold f32ToUsize
      rw [if_pos (le_of_lt hneg)]
    refine ⟨hy0, ?_⟩
    unfold writeFragment
    rw [hy0, if_pos ⟨hx, hh⟩]

/-- C10: `rotate_vec3` agrees with the combined rotation matrix `Z * Y * X`
built by `create_model_matrix`: with unit scale and zero translation, the
3x3 linear submatrix of the model matrix applied to any vector equals
`rotate_vec3` of that vector, for all values of the six sine/cosine
parameters (in particular at the actual sines and cosines of any rotation
triple). -/
theorem c10_rotate_vec3_matches_model_matrix (sc : SinCos) (v : Vec3 ℚ) :
    rotate_vec3 v sc =
      (linearSubmatrix (create_model_matrix ⟨0, 0, 0⟩ 1 sc)).mulVec v := by
  obtain ⟨vx, vy, vz⟩ := v
  obtain ⟨sx, cx, sy, cy, sz, cz⟩ := sc
  show Vec3.mk _ _ _ = Vec3.mk _ _ _
  simp only [rotate_vec3, create_model_matrix, linearSubmatrix, Mat4.mul, Mat3.mulVec,
    Vec3.mk.injEq]
  refine ⟨by ring, by ring, by ring⟩

@[simp] theorem Vec3.hdiv_x (v : Vec3 ℝ) (s : ℝ) : (v / s).x = v.x / s := rfl

@[simp] theorem Vec3.hdiv_y (v : Vec3 ℝ) (s : ℝ) : (v / s).y = v.y / s := rfl

@[simp] theorem Vec3.hdiv_z (v : Vec3 ℝ) (s : ℝ) : (v / s).z = v.z / s := rfl

/-- C8: the `shade` dispatch is total over all integer style keys: keys 0-6
select the gas, rock, sun, cheese, cat, bubblegum and ice shaders
respectively, and every key outside that set falls back to the gas shader,
so `shade` returns a color for every input. -/
theorem c8_shade_dispatch_total (seed : ℕ) (pos normal : Vec3 ℝ) :
    shade 0 seed pos normal = planet_shader_gas pos normal ∧
    shade 1 seed pos normal = planet_shader_rock seed pos normal ∧
    shade 2 seed pos normal = planet_shader_sun pos normal ∧
    shade 3 seed pos normal = planet_shader_cheese seed pos normal ∧
    shade 4 seed pos normal = planet_shader_cat seed pos normal ∧
    shade 5 seed pos normal = planet_shader_bubblegum seed pos normal ∧
    shade 6 seed pos normal = planet_shader_ice seed pos normal ∧
    ∀ idx : ℕ, 7 ≤ idx → shade idx seed pos normal = planet_shader_gas pos normal := by
  refine ⟨rfl, rfl, rfl, rfl, rfl, rfl, rfl, ?_⟩
  intro idx h
  obtain ⟨n, rfl⟩ : ∃ n, idx = n + 7 := ⟨idx - 7, by omega⟩
  rfl

/-- Witness for C8 at the concrete out-of-range key 9. -/
theorem c8_shade_dispatch_total_witness :
    shade 9 0 ⟨1, 2, 3⟩ ⟨0, 0, 1⟩ = planet_shader_gas ⟨1, 2, 3⟩ ⟨0, 0, 1⟩ :=
  (c8_shade_dispatch_total 0 ⟨1, 2, 3⟩ ⟨0, 0, 1⟩).2.2.2.2.2.2.2 9 (by decide)

/-- C4 counterexample: the claim says the color returned for a fixed
(position, normal, style, seed) depends on the most recently set light
direction and intensity; but two global states agreeing on style and seed
while differing in light direction (`(1,0,0)` vs `(0,1,0)`) and intensity
(5 vs 7) produce identical colors — no shading function reads the light
state (each hard-codes its own `light_dir`, and shaders.rs has no light
global at all). -/
theorem c4_light_globals_counterexample :
    shadeWithGlobals ⟨2, 0, ⟨1, 0, 0⟩, 5⟩ ⟨1, 2, 3⟩ ⟨0, 0, 1⟩ =
      shadeWithGlobals ⟨2, 0, ⟨0, 1, 0⟩, 7⟩ ⟨1, 2, 3⟩ ⟨0, 0, 1⟩ := rfl

/-- C4 amended: the shading functions read the process-wide shader index
(via the dispatch) and the noise seed, but not the light direction or light
intensity: each shading function uses a hard-coded light direction, so the
color for a fixed (position, normal, style, seed) is independent of the
light settings. -/
theorem c4_shade_light_independent (g1 g2 : ShaderGlobals) (pos normal : Vec3 ℝ)
    (hidx : g1.shader_idx = g2.shader_idx) (hseed : g1.noise_seed = g2.noise_seed) :
    shadeWithGlobals g1 pos normal = shadeWithGlobals g2 pos normal := by
  unfold shadeWithGlobals
  rw [hidx, hseed]

/-- Witness for C4 at two concrete global states differing only in the
light fields. -/
theorem c4_shade_light_independent_witness :
    shadeWithGlobals ⟨0, 3, ⟨1, 0, 0⟩, 2⟩ ⟨1, 2, 3⟩ ⟨0, 0, 1⟩ =
      shadeWithGlobals ⟨0, 3, ⟨0, 0, 1⟩, 9⟩ ⟨1, 2, 3⟩ ⟨0, 0, 1⟩ :=
  c4_shade_light_independent ⟨0, 3, ⟨1, 0, 0⟩, 2⟩ ⟨0, 3, ⟨0, 0, 1⟩, 9⟩
    ⟨1, 2, 3⟩ ⟨0, 0, 1⟩ rfl rfl

theorem rclamp01_nonneg (x : ℝ) : 0 ≤ rclamp x 0 1 := le_max_left 0 _

theorem rclamp01_le_one (x : ℝ) : rclamp x 0 1 ≤ 1 :=
  max_le zero_le_one (min_le_right x 1)

theorem planet_shader_gas_channels (pos normal : Vec3 ℝ) :
    channelsIn01 (planet_shader_gas pos normal) := by
  unfold channelsIn01
  exact ⟨rclamp01_nonneg _, rclamp01_le_one _, rclamp01_nonneg _, rclamp01_le_one _,
    rclamp01_nonneg _, rclamp01_le_one _⟩

theorem planet_shader_rock_channels (seed : ℕ) (pos normal : Vec3 ℝ) :
    channelsIn01 (planet_shader_rock seed pos normal) := by
  unfold channelsIn01
  exact ⟨rclamp01_nonneg _, rclamp01_le_one _, rclamp01_nonneg _, rclamp01_le_one _,
    rclamp01_nonneg _, rclamp01_le_one _⟩

theorem planet_shader_cheese_channels (seed : ℕ) (pos normal : Vec3 ℝ) :
    channelsIn01 (planet_shader_cheese seed pos normal) := by
  unfold channelsIn01
  exact ⟨rclamp01_nonneg _, rclamp01_le_one _, rclamp01_nonneg _, rclamp01_le_one _,
    rclamp01_nonneg _, rclamp01_le_one _⟩

theorem planet_shader_cat_channels (seed : ℕ) (pos normal : Vec3 ℝ) :
    channelsIn01 (planet_shader_cat seed pos normal) := by
  unfold channelsIn01
  exact ⟨rclamp01_nonneg _, rclamp01_le_one _, rclamp01_nonneg _, rclamp01_le_one _,
    rclamp01_nonneg _, rclamp01_le_one _⟩

theorem planet_shader_bubblegum_channels (seed : ℕ) (pos normal : Vec3 ℝ) :
    channelsIn01 (planet_shader_bubblegum seed pos normal) := by
  unfold channelsIn01
  exact ⟨rclamp01_nonneg _, rclamp01_le_one _, rclamp01_nonneg _, rclamp01_le_one _,
    rclamp01_nonneg _, rclamp01_le_one _⟩

theorem planet_shader_ice_channels (seed : ℕ) (pos normal : Vec3 ℝ) :
    channelsIn01 (planet_shader_ice seed pos normal) := by
  unfold channelsIn01
  exact ⟨rclamp01_nonneg _, rclamp01_le_one _, rclamp01_nonneg _, rclamp01_le_one _,
    rclamp01_nonneg _, rclamp01_le_one _⟩

theorem normalize_z_le_one (v : Vec3 ℝ) : (Vec3.normalize v).z ≤ 1 := by
  show v.z / Real.sqrt (v.x * v.x + v.y * v.y + v.z * v.z) ≤ 1
  rcases eq_or_lt_of_le
      (Real.sqrt_nonneg (v.x * v.x + v.y * v.y + v.z * v.z)) with h0 | hpos
  · rw [← h0, div_zero]
    exact zero_le_one
  · rw [div_le_one hpos]
    have h1 : v.z ≤ |v.z| := le_abs_self _
    have h2 : |v.z| = Real.sqrt (v.z * v.z) := (Real.sqrt_mul_self_eq_abs v.z).symm
    have h3 : Real.sqrt (v.z * v.z) ≤
        Real.sqrt (v.x * v.x + v.y * v.y + v.z * v.z) := by
      apply Real.sqrt_le_sqrt
      nlinarith [mul_self_nonneg v.x, mul_self_nonneg v.y]
    linarith

theorem one_sub_normalize_dot_e3_nonneg (v : Vec3 ℝ) :
    0 ≤ 1 - Vec3.dot (Vec3.normalize v) ⟨0, 0, 1⟩ := by
  have hdot : Vec3.dot (Vec3.normalize v) ⟨0, 0, 1⟩ = (Vec3.normalize v).z := by
    show (Vec3.normalize v).x * 0 + (Vec3.normalize v).y * 0 + (Vec3.normalize v).z * 1 = _
    ring
  rw [hdot]
  have := normalize_z_le_one v
  linarith

theorem planet_shader_sun_channels (pos normal : Vec3 ℝ) :
    channelsIn01 (planet_shader_sun pos normal) := by
  unfold channelsIn01
  simp only [planet_shader_sun, Vec3.add_x, Vec3.add_y, Vec3.add_z,
    Vec3.hmul_x, Vec3.hmul_y, Vec3.hmul_z]
  refine ⟨?_, min_le_right _ _, ?_, min_le_right _ _, ?_, min_le_right _ _⟩ <;>
  · refine le_min ?_ zero_le_one
    refine add_nonneg (mul_nonneg (mul_nonneg (add_nonneg (add_nonneg ?_ ?_) ?_) ?_) ?_) ?_
    · norm_num
    · exact mul_nonneg (by norm_num)
        (mul_nonneg (rclamp01_nonneg _) (by norm_num))
    · exact mul_nonneg (by norm_num) (le_max_right _ _)
    · exact add_nonneg (by norm_num)
        (mul_nonneg (by norm_num) (rclamp01_nonneg _))
    · exact le_trans (by norm_num) (le_max_right _ (0.55 : ℝ))
    · exact mul_nonneg (by norm_num)
        (mul_nonneg (Real.rpow_nonneg (one_sub_normalize_dot_e3_nonneg normal) _)
          (by norm_num))

/-- C2: for every shading-style key, noise seed, finite model-space
position and non-zero normal, the color returned by the dispatched `shade`
has all three channels in `[0,1]` (in this exact real-valued embedding
every value is finite; the non-zero-normal hypothesis mirrors the claim).
-/
theorem c2_shade_channels_in_unit (idx seed : ℕ) (pos normal : Vec3 ℝ)
    (_hn : normal ≠ ⟨0, 0, 0⟩) :
    channelsIn01 (shade idx seed pos normal) := by
  match idx with
  | 0 => exact planet_shader_gas_channels pos normal
  | 1 => exact planet_shader_rock_channels seed pos normal
  | 2 => exact planet_shader_sun_channels pos normal
  | 3 => exact planet_shader_cheese_channels seed pos normal
  | 4 => exact planet_shader_cat_channels seed pos normal
  | 5 => exact planet_shader_bubblegum_channels seed pos normal
  | 6 => exact planet_shader_ice_channels seed pos normal
  | n + 7 => exact planet_shader_gas_channels pos normal

/-- Witness for C2 at the sun shader (key 2) with the concrete non-zero
normal `(0, 0, 1)`. -/
theorem c2_shade_channels_in_unit_witness :
    ((⟨0, 0, 1⟩ : Vec3 ℝ) ≠ ⟨0, 0, 0⟩) ∧
      channelsIn01 (shade 2 0 ⟨1, 2, 3⟩ ⟨0, 0, 1⟩) := by
  have hn : (⟨0, 0, 1⟩ : Vec3 ℝ) ≠ ⟨0, 0, 0⟩ := by
    intro h
    exact one_ne_zero (congrArg Vec3.z h)
  exact ⟨hn, c2_shade_channels_in_unit 2 0 ⟨1, 2, 3⟩ ⟨0, 0, 1⟩ hn⟩

/-- Witness for C3 at a concrete collinear triangle. -/
theorem c3_zero_area_triangle_empty_witness :
    edge_function dv1.transformed_position dv2.transformed_position
        dv3.transformed_position = 0 ∧
      triangle wshade dv1 dv2 dv3 = [] := by
  have h : edge_function dv1.transformed_position dv2.transformed_position
      dv3.transformed_position = 0 := by
    norm_num [edge_function, dv1, dv2, dv3]
  exact ⟨h, c3_zero_area_triangle_empty wshade dv1 dv2 dv3 h⟩

/-- Witness for C5 at the pixel `(1, 1)` of the fixture triangle: the pixel
center `(1.5, 1.5)` has weights `1/4`, `3/8`, `3/8`, all in `[0,1]`, and the
rasterizer indeed emits a fragment there. -/
theorem c5_accept_iff_weights_in_unit_witness :
    (calculate_bounding_box wv1.transformed_position wv2.transformed_position
        wv3.transformed_position).1 ≤ (1 : ℤ) ∧
    (1 : ℤ) ≤ (calculate_bounding_box wv1.transformed_position wv2.transformed_position
        wv3.transformed_position).2.2.1 ∧
    (calculate_bounding_box wv1.transformed_position wv2.transformed_position
        wv3.transformed_position).2.1 ≤ (1 : ℤ) ∧
    (1 : ℤ) ≤ (calculate_bounding_box wv1.transformed_position wv2.transformed_position
        wv3.transformed_position).2.2.2 ∧
    (∃ f ∈ triangle wshade wv1 wv2 wv3,
      f.position.x = ((1 : ℤ) : ℚ) ∧ f.position.y = ((1 : ℤ) : ℚ)) := by
  have h1 : (calculate_bounding_box wv1.transformed_position wv2.transformed_position
      wv3.transformed_position).1 ≤ (1 : ℤ) := by
    norm_num [calculate_bounding_box, wv1, wv2, wv3]
  have h2 : (1 : ℤ) ≤ (calculate_bounding_box wv1.transformed_position
      wv2.transformed_position wv3.transformed_position).2.2.1 := by
    norm_num [calculate_bounding_box, wv1, wv2, wv3]
  have h3 : (calculate_bounding_box wv1.transformed_position wv2.transformed_position
      wv3.transformed_position).2.1 ≤ (1 : ℤ) := by
    norm_num [calculate_bounding_box, wv1, wv2, wv3]
  have h4 : (1 : ℤ) ≤ (calculate_bounding_box wv1.transformed_position
      wv2.transformed_position wv3.transformed_position).2.2.2 := by
    norm_num [calculate_bounding_box, wv1, wv2, wv3]
  refine ⟨h1, h2, h3, h4, ?_⟩
  refine (c5_accept_iff_weights_in_unit wshade wv1 wv2 wv3 1 1 h1 h2 h3 h4).mpr ?_
  refine ⟨?_, ?_, ?_⟩ <;>
    norm_num [fdiv, FDiv.inUnit, edge_function, wv1, wv2, wv3]

/-- Witness for C6 on a four-vertex list: exactly one triangle, built from
the first three transformed vertices; the fourth vertex is dropped. -/
theorem c6_render_groups_triples_witness :
    (renderTriangles ⟨Mat4.identity⟩ [wv1, wv2, wv3, wv1]).length = 1 ∧
      (renderTriangles ⟨Mat4.identity⟩ [wv1, wv2, wv3, wv1]).get? 0 =
        some (vertex_shader wv1 ⟨Mat4.identity⟩, vertex_shader wv2 ⟨Mat4.identity⟩,
          vertex_shader wv3 ⟨Mat4.identity⟩) := by
  constructor
  · have h := (c6_render_groups_triples ⟨Mat4.identity⟩ [wv1, wv2, wv3, wv1]).1
    simpa using h
  · exact (c6_render_groups_triples ⟨Mat4.identity⟩ [wv1, wv2, wv3, wv1]).2
      0 _ _ _ rfl rfl rfl

/-- Witness for C9: the fragment at `x = -3` saturates to column 0 and is
handed to the depth-tested write instead of being discarded. -/
theorem c9_negative_coordinate_saturates_to_zero_witness :
    wfrag.position.x < 0 ∧ f32ToUsize wfrag.position.y < wfb.height ∧
      0 < wfb.width ∧
      (f32ToUsize wfrag.position.x = 0 ∧
        writeFragment wfb wfrag =
          (wfb.set_current_color wfrag.color.toHex).point 0
            (f32ToUsize wfrag.position.y) wfrag.depth) := by
  have h1 : wfrag.position.x < 0 := by norm_num [wfrag]
  have h2 : f32ToUsize wfrag.position.y < wfb.height := by
    norm_num [f32ToUsize, wfrag, wfb]
  have h3 : 0 < wfb.width := by norm_num [wfb]
  exact ⟨h1, h2, h3,
    (c9_negative_coordinate_saturates_to_zero wfb wfrag).1 h1 h2 h3⟩
